import Mathlib

/-!
Shallow embedding, in Lean 4, of the résumé-screening core of the
`odq-recruta-online` repository, covering the scoring engine of
`src/curriculum_analyzer.py` (class `CurriculumAnalyzer`) and the
persistence routine `salvar_resultado` of `src/database_manager.py`
(class `DatabaseManager`).

Modelling conventions:
* Python floats are embedded as exact rationals (`ℚ`); `round(x, 1)`
  is embedded as round-half-to-even on tenths (`round_py1`).
* Python strings are Lean `String`s; `str.lower()` and the
  accent-stripping normalisation `_normalizar_texto` (Unicode NFD
  followed by removal of combining marks and lower-casing) are embedded
  character by character for the Latin-1 alphabet actually used by the
  program's keyword tables and by Portuguese résumé text.
* File-system reading and the concrete PDF/DOCX libraries are outside a
  pure embedding: an attachment carries, in `texto_arquivo`, the text
  that the format-specific library routine would yield for its bytes
  (empty string when that routine fails), exactly the contract that
  `_extrair_texto` documents ("Texto extraído ou string vazia se erro").
  The branch structure of `_extrair_texto` over the declared type tag is
  embedded faithfully, including the fixed informative message returned
  for legacy `.doc` files.
* The optional AI hook (`ai_analyzer`) is absent (`IA_DISPONIVEL` is
  false unless an extra module is installed; `self.ai_analyzer = None`),
  so the `if self.ai_analyzer:` block of `_analisar_texto` is skipped.
* `datetime.now()` fields and the `try/except` wrappers (which can only
  fire on environment faults such as I/O errors) are not modelled.
-/

/-- Lower-case a character the way Python `str.lower()` does on the
ASCII and Latin-1 letters used by the program (A–Z and À–Þ except ×). -/
def pyLowerChar (c : Char) : Char :=
  let n := c.toNat
  if 65 ≤ n && n ≤ 90 then Char.ofNat (n + 32)
  else if 192 ≤ n && n ≤ 222 && n != 215 then Char.ofNat (n + 32)
  else c

/-- `str.lower()` on a whole string. -/
def pyLower (s : String) : String :=
  String.mk (s.data.map pyLowerChar)

/-- One character of `_normalizar_texto`: NFD-decompose, drop combining
marks, lower-case.  For the Latin alphabet used by the program this is
exactly "lower-case, then replace each accented letter by its base
letter". -/
def normalizarChar (c : Char) : Char :=
  let n := c.toNat
  if 97 ≤ n && n ≤ 122 then c
  else if 65 ≤ n && n ≤ 90 then Char.ofNat (n + 32)
  else if n == 225 || n == 224 || n == 226 || n == 227 || n == 228 then 'a'
  else if n == 233 || n == 232 || n == 234 || n == 235 then 'e'
  else if n == 237 || n == 236 || n == 238 || n == 239 then 'i'
  else if n == 243 || n == 242 || n == 244 || n == 245 || n == 246 then 'o'
  else if n == 250 || n == 249 || n == 251 || n == 252 then 'u'
  else if n == 231 then 'c'
  else if n == 193 || n == 192 || n == 194 || n == 195 || n == 196 then 'a'
  else if n == 201 || n == 200 || n == 202 || n == 203 then 'e'
  else if n == 205 || n == 204 || n == 206 || n == 207 then 'i'
  else if n == 211 || n == 210 || n == 212 || n == 213 || n == 214 then 'o'
  else if n == 218 || n == 217 || n == 219 || n == 220 then 'u'
  else if n == 199 then 'c'
  else c

/-- `CurriculumAnalyzer._normalizar_texto`: strip diacritics and
lower-case. -/
def normalizar_texto (s : String) : String :=
  String.mk (s.data.map normalizarChar)

/-- Python `str.strip()` (whitespace trim at both ends). -/
def pyStrip (s : String) : String :=
  let ws := fun c => c == ' ' || c == '\t' || c == '\n' || c == '\r'
  String.mk (((s.data.dropWhile ws).reverse.dropWhile ws).reverse)

/-- Substring test on character lists (Python's `needle in hay`). -/
def isSubList (agulha : List Char) : List Char → Bool
  | [] => agulha.isEmpty
  | c :: resto => agulha.isPrefixOf (c :: resto) || isSubList agulha resto

/-- Python's `sub in s` on strings. -/
def isSub (agulha s : String) : Bool :=
  isSubList agulha.data s.data

/-- `CurriculumAnalyzer.abreviacoes`: the static abbreviation table,
transcribed verbatim from the constructor. -/
def abreviacoes : List (String × List String) :=
  [ ("tst", ["técnico em segurança do trabalho", "tecnico em seguranca do trabalho",
             "segurança do trabalho", "seguranca do trabalho"]),
    ("rh", ["recursos humanos", "gestão de pessoas", "gestao de pessoas"]),
    ("ti", ["tecnologia da informação", "tecnologia da informacao", "informatica", "informática"]),
    ("adm", ["administração", "administracao", "administrativo"]),
    ("eng", ["engenharia", "engenheiro", "engenheira"]),
    ("tec", ["técnico", "tecnico", "tecnologia"]),
    ("sup", ["superior", "supervisão", "supervisao", "supervisor"]),
    ("coord", ["coordenação", "coordenacao", "coordenador"]),
    ("ger", ["gerência", "gerencia", "gerente"]),
    ("dir", ["diretoria", "diretor", "diretora"]),
    ("aux", ["auxiliar", "assistente"]),
    ("op", ["operação", "operacao", "operador"]),
    ("prod", ["produção", "producao", "produto"]),
    ("qual", ["qualidade", "controle de qualidade"]),
    ("seg", ["segurança", "seguranca"]),
    ("amb", ["ambiental", "meio ambiente"]),
    ("cont", ["contabilidade", "contador", "contábil", "contabil"]),
    ("fin", ["financeiro", "finanças", "financas"]),
    ("com", ["comercial", "comércio", "comercio", "vendas"]),
    ("mkt", ["marketing", "mercadologia"]),
    ("log", ["logística", "logistica"]) ]

/-- `CurriculumAnalyzer.palavras_chave_default`, transcribed verbatim. -/
def palavras_chave_default : List String :=
  ["experiência", "experiencia", "formação", "formacao", "graduação", "graduacao",
   "curso", "habilidades", "conhecimento", "competências", "competencias",
   "projetos", "trabalho", "técnico", "tecnico"]

/-- Python `self.abreviacoes[k]` guarded by `k in self.abreviacoes`. -/
def lookupAbrev (k : String) : Option (List String) :=
  (abreviacoes.find? (fun p => p.1 == k)).map (fun p => p.2)

/-- The words appended by one iteration of the outer loop of
`_expandir_palavras_chave` for a keyword whose normalised form is `pn`:
the expansions of `pn` when it is an abbreviation key, then every
abbreviation whose term list contains `pn`. -/
def adicoesAbrev (pn : String) : List String :=
  (match lookupAbrev pn with
   | some termos => termos
   | none => []) ++
  abreviacoes.filterMap (fun p =>
    if p.2.any (fun termo => pn == normalizar_texto termo) then some p.1 else none)

/-- The final duplicate-removal loop of `_expandir_palavras_chave`
(keep first occurrences, in order). -/
def dedupPalavras (acc : List String) : List String → List String
  | [] => acc
  | x :: xs => if acc.contains x then dedupPalavras acc xs else dedupPalavras (acc ++ [x]) xs

/-- `CurriculumAnalyzer._expandir_palavras_chave`. -/
def expandir_palavras_chave (palavras_chave : List String) : List String :=
  dedupPalavras []
    (palavras_chave ++ palavras_chave.flatMap (fun palavra => adicoesAbrev (normalizar_texto palavra)))

/-- The "verificar relação direta" test of `_calcular_score_categoria`
(lines 438–439 of the source). -/
def relacao_direta (keyword palavra_expandida : String) : Bool :=
  let keyword_norm := normalizar_texto keyword
  let palavra_exp_norm := normalizar_texto palavra_expandida
  (match lookupAbrev keyword_norm with
   | some termos => (termos.map normalizar_texto).contains palavra_exp_norm
   | none => false) ||
  (match lookupAbrev palavra_exp_norm with
   | some termos => (termos.map normalizar_texto).contains keyword_norm
   | none => false)

/-- The per-keyword match decision of `_calcular_score_categoria`:
direct normalised-substring hit, or some expanded word that occurs in
the text and stands in direct abbreviation relation with the keyword. -/
def encontrou_keyword (texto_normalizado : String) (palavras_expandidas : List String)
    (keyword : String) : Bool :=
  isSub (normalizar_texto keyword) texto_normalizado ||
  palavras_expandidas.any (fun pe =>
    isSub (normalizar_texto pe) texto_normalizado && relacao_direta keyword pe)

/-- The dictionary returned by `_calcular_score_categoria`. -/
structure ScoreCategoria where
  pontuacao : ℚ
  palavras_encontradas : List String
  total_palavras_categoria : Nat
deriving DecidableEq

/-- `CurriculumAnalyzer._calcular_score_categoria`. -/
def calcular_score_categoria (texto : String) (keywords : List String) : ScoreCategoria :=
  let texto_normalizado := normalizar_texto texto
  let palavras_expandidas := expandir_palavras_chave keywords
  let palavras_encontradas := keywords.foldl
    (fun acc keyword =>
      if encontrou_keyword texto_normalizado palavras_expandidas keyword && !(acc.contains keyword)
      then acc ++ [keyword] else acc) []
  let proporcao : ℚ :=
    if keywords.length > 0 then (palavras_encontradas.length : ℚ) / (keywords.length : ℚ) else 0
  { pontuacao := min (proporcao * 10) 10,
    palavras_encontradas := palavras_encontradas,
    total_palavras_categoria := keywords.length }

/-- One keyword's contribution inside the loop of
`_verificar_correspondencia_vaga`: 1 for a direct hit of the normalised
keyword in the (caller-lower-cased) text, 0.7 when only one of its
abbreviation expansions occurs, 0 otherwise. -/
def contribuicao_vaga (texto : String) (palavra_chave : String) : ℚ :=
  let palavra_norm := normalizar_texto (pyStrip palavra_chave)
  if isSub palavra_norm texto then 1
  else
    let palavras_relacionadas :=
      match lookupAbrev palavra_norm with
      | some termos => termos
      | none => []
    if palavras_relacionadas.any (fun t => isSub (normalizar_texto t) texto) then 7/10 else 0

/-- `CurriculumAnalyzer._verificar_correspondencia_vaga`. -/
def verificar_correspondencia_vaga (texto : String) (palavras_chave_vaga : List String) : ℚ :=
  if palavras_chave_vaga.isEmpty then 0
  else
    let correspondencias :=
      palavras_chave_vaga.foldl (fun acc p => acc + contribuicao_vaga texto p) 0
    min (correspondencias / (palavras_chave_vaga.length : ℚ) * 10) 10

/-- Floor of a rational (`q.den` is positive, so flooring integer
division of numerator by denominator). -/
def ratFloorInt (q : ℚ) : ℤ := q.num.fdiv q.den

/-- Round a rational to the nearest integer, ties to even — the
semantics of Python 3 `round` on exact values. -/
def roundHalfParaPar (q : ℚ) : ℤ :=
  let f := ratFloorInt q
  let r := q - (f : ℚ)
  if r < 1/2 then f
  else if (1 : ℚ)/2 < r then f + 1
  else if f % 2 = 0 then f else f + 1

/-- Python `round(x, 1)` on exact rationals. -/
def round_py1 (q : ℚ) : ℚ := ((roundHalfParaPar (q * 10) : ℤ) : ℚ) / 10

/-- The `detalhes` dictionary assembled by `_analisar_texto`.  Keys that a
given code path does not set are `none`.  The Python message strings that
interpolate the correspondence score are abstracted to their fixed prefix;
the score itself is recorded separately in `correspondencia_score`. -/
structure Detalhes where
  palavras_chave_vaga : Option ScoreCategoria := none
  formacao : Option ScoreCategoria := none
  experiencia : Option ScoreCategoria := none
  habilidades : Option ScoreCategoria := none
  motivo_rejeicao : Option String := none
  analise_rejeicao : Option String := none
  palavras_buscadas : Option (List String) := none
  correspondencia_score : Option ℚ := none
deriving DecidableEq

/-- The dictionary returned by `_analisar_texto`. -/
structure AnaliseTexto where
  pontuacao : ℚ
  palavras_encontradas : List String
  detalhes : Detalhes
deriving DecidableEq

/-- The fixed `formacao_keywords` list of `_analisar_texto`. -/
def formacao_keywords : List String :=
  ["graduação", "bacharelado", "licenciatura", "mestrado", "doutorado",
   "técnico", "superior", "universidade", "faculdade", "curso"]

/-- The fixed `experiencia_keywords` list of `_analisar_texto`. -/
def experiencia_keywords : List String :=
  ["experiência", "trabalho", "emprego", "função", "cargo",
   "atuação", "atividade", "responsabilidade", "ano", "anos"]

/-- The fixed `habilidades_keywords` list of `_analisar_texto`. -/
def habilidades_keywords : List String :=
  ["conhecimento", "habilidade", "competência", "domínio",
   "experiência em", "trabalho com", "utilização"]

/-- Fixed prefix of the `motivo_rejeicao` message of the gate branch. -/
def motivo_rejeicao_msg : String :=
  "Currículo não corresponde à vaga"

/-- The `analise_rejeicao` message of the gate branch. -/
def analise_rejeicao_msg : String :=
  "Currículo não possui palavras-chave suficientes para a vaga específica"

/-- `CurriculumAnalyzer._analisar_texto` (with `ai_analyzer = None`, see
the header note).  The caller always passes a concrete keyword list, so
the `palavras_chave is None` guard of the source is resolved at the call
sites (`analisar_curriculo` / `_analisar_arquivo`). -/
def analisar_texto (texto : String) (palavras_chave : List String) : AnaliseTexto :=
  let texto_lower := pyLower texto
  if palavras_chave ≠ palavras_chave_default then
    let vaga_score := calcular_score_categoria texto_lower palavras_chave
    let correspondencia_minima := verificar_correspondencia_vaga texto_lower palavras_chave
    if correspondencia_minima < 2 then
      { pontuacao := 0,
        palavras_encontradas := [],
        detalhes :=
          { motivo_rejeicao := some motivo_rejeicao_msg,
            analise_rejeicao := some analise_rejeicao_msg,
            palavras_buscadas := some (palavras_chave.take 5),
            correspondencia_score := some correspondencia_minima } }
    else
      let formacao_score := calcular_score_categoria texto_lower formacao_keywords
      let experiencia_score := calcular_score_categoria texto_lower experiencia_keywords
      let habilidades_score := calcular_score_categoria texto_lower habilidades_keywords
      let pontuacao_geral :=
        (formacao_score.pontuacao + experiencia_score.pontuacao + habilidades_score.pontuacao) / 3
      let pontuacao := vaga_score.pontuacao * (7/10) + pontuacao_geral * (3/10)
      { pontuacao := round_py1 pontuacao,
        palavras_encontradas :=
          vaga_score.palavras_encontradas ++ formacao_score.palavras_encontradas ++
          experiencia_score.palavras_encontradas ++ habilidades_score.palavras_encontradas,
        detalhes :=
          { palavras_chave_vaga := some vaga_score,
            formacao := some formacao_score,
            experiencia := some experiencia_score,
            habilidades := some habilidades_score } }
  else
    let formacao_score := calcular_score_categoria texto_lower formacao_keywords
    let experiencia_score := calcular_score_categoria texto_lower experiencia_keywords
    let habilidades_score := calcular_score_categoria texto_lower habilidades_keywords
    let pontuacao :=
      (formacao_score.pontuacao + experiencia_score.pontuacao + habilidades_score.pontuacao) / 3
    { pontuacao := round_py1 pontuacao,
      palavras_encontradas :=
        formacao_score.palavras_encontradas ++ experiencia_score.palavras_encontradas ++
        habilidades_score.palavras_encontradas,
      detalhes :=
        { formacao := some formacao_score,
          experiencia := some experiencia_score,
          habilidades := some habilidades_score } }

/-- An e-mail attachment as consumed by `_analisar_arquivo`:
`texto_arquivo` carries the text that the format-specific extraction
library would produce from the attachment's bytes (empty string when
that library call fails), per the header note. -/
structure Anexo where
  nome_original : String
  tipo : String
  texto_arquivo : String
deriving DecidableEq

/-- The informative message `_extrair_texto_doc` always returns. -/
def mensagem_doc : String := "Arquivo DOC antigo - recomenda-se converter para DOCX"

/-- `CurriculumAnalyzer._extrair_texto`: dispatch on the declared type
tag; unknown tags yield the empty string. -/
def extrair_texto (anexo : Anexo) : String :=
  if anexo.tipo == "pdf" then anexo.texto_arquivo
  else if anexo.tipo == "docx" then anexo.texto_arquivo
  else if anexo.tipo == "doc" then mensagem_doc
  else if anexo.tipo == "txt" then anexo.texto_arquivo
  else ""

/-- The per-attachment result dictionary built by `_analisar_arquivo`.
Keys absent from a given code path are `none`. -/
structure ResultadoAnexo where
  nome_arquivo : String
  tipo_arquivo : Option String := none
  tamanho_texto : Option Nat := none
  texto_extraido : Bool
  pontuacao : ℚ
  palavras_encontradas : List String := []
  detalhes : Option Detalhes := none
  erro : Option String := none
deriving DecidableEq

/-- The error message of `_analisar_arquivo`'s empty-text branch. -/
def erro_extracao_msg : String := "Não foi possível extrair texto"

/-- `CurriculumAnalyzer._analisar_arquivo`.  Python's
`if not texto_extraido:` is the empty-string test, since
`_extrair_texto` always returns a string. -/
def analisar_arquivo (anexo : Anexo) (palavras_chave : List String) : ResultadoAnexo :=
  let texto_extraido := extrair_texto anexo
  if texto_extraido == "" then
    { nome_arquivo := anexo.nome_original,
      texto_extraido := false,
      pontuacao := 0,
      palavras_encontradas := [],
      erro := some erro_extracao_msg }
  else
    let analise := analisar_texto texto_extraido palavras_chave
    { nome_arquivo := anexo.nome_original,
      tipo_arquivo := some anexo.tipo,
      tamanho_texto := some texto_extraido.length,
      texto_extraido := true,
      pontuacao := analise.pontuacao,
      palavras_encontradas := analise.palavras_encontradas,
      detalhes := some analise.detalhes }

/-- The `email_data` dictionary consumed by `analisar_curriculo`. -/
structure EmailData where
  remetente : String
  assunto : String
  data : String
  anexos : List Anexo
deriving DecidableEq

/-- The result dictionary of `analisar_curriculo` (the `data` timestamp
produced by `datetime.now()` is not modelled). -/
structure ResultadoEmail where
  email_remetente : String
  assunto : String
  data_email : String
  anexos_analisados : List ResultadoAnexo
  pontuacao : ℚ
  status : String
  nome_arquivo : String
  vaga_id : Option Nat := none
deriving DecidableEq

/-- Python's `palavras_chave_vaga if palavras_chave_vaga else
self.palavras_chave_default` (both `None` and the empty list are falsy). -/
def resolver_palavras_chave (palavras_chave_vaga : Option (List String)) : List String :=
  match palavras_chave_vaga with
  | some l => if l.isEmpty then palavras_chave_default else l
  | none => palavras_chave_default

/-- `CurriculumAnalyzer.analisar_curriculo` (normal path; the `except`
branch can only fire on environment faults, see the header note). -/
def analisar_curriculo (email_data : EmailData)
    (palavras_chave_vaga : Option (List String)) : ResultadoEmail :=
  let palavras_chave := resolver_palavras_chave palavras_chave_vaga
  let resultados_anexos := email_data.anexos.map (fun anexo => analisar_arquivo anexo palavras_chave)
  let pontuacao_total := (resultados_anexos.map (fun r => r.pontuacao)).sum
  let num_anexos := resultados_anexos.length
  let pontuacao_media : ℚ := if num_anexos > 0 then pontuacao_total / (num_anexos : ℚ) else 0
  let status :=
    if pontuacao_media ≥ 3 then "Aprovado"
    else if pontuacao_media ≥ 3/2 then "Revisar"
    else "Rejeitado"
  { email_remetente := email_data.remetente,
    assunto := email_data.assunto,
    data_email := email_data.data,
    anexos_analisados := resultados_anexos,
    pontuacao := pontuacao_media,
    status := status,
    nome_arquivo := String.intercalate (", ") (email_data.anexos.map (fun a => a.nome_original)) }

/-- One row of the SQLite `resultados` table (the serialised
`detalhes_json` blob and the `data_analise` timestamp are not modelled). -/
structure ResultadoRow where
  id : Nat
  email_remetente : String
  assunto : String
  data_email : String
  nome_arquivo : String
  pontuacao : ℚ
  status : String
  vaga_id : Option Nat
deriving DecidableEq

/-- One row of the SQLite `anexos` table. -/
structure AnexoRow where
  id : Nat
  resultado_id : Nat
  nome_arquivo : String
  tipo_arquivo : String
  tamanho_texto : Nat
  pontuacao : ℚ
  palavras_encontradas : List String
deriving DecidableEq

/-- The database state seen by `DatabaseManager`: the two tables touched
by `salvar_resultado`, plus the AUTOINCREMENT counters (SQLite's
`lastrowid` = previous counter + 1). -/
structure BancoDados where
  resultados : List ResultadoRow
  anexos : List AnexoRow
  seq_resultados : Nat
  seq_anexos : Nat
deriving DecidableEq

/-- The identity-key test of `salvar_resultado`'s SELECT:
same `email_remetente`, `assunto` and `data_email`. -/
def chave_igual (resultado : ResultadoEmail) (row : ResultadoRow) : Bool :=
  row.email_remetente == resultado.email_remetente &&
  row.assunto == resultado.assunto &&
  row.data_email == resultado.data_email

/-- The attachment-insertion loop of `salvar_resultado`. -/
def inserir_anexos (resultado_id : Nat) (anexos : List ResultadoAnexo)
    (linhas : List AnexoRow) (seq : Nat) : List AnexoRow × Nat :=
  anexos.foldl
    (fun par a =>
      (par.1 ++ [{ id := par.2 + 1,
                   resultado_id := resultado_id,
                   nome_arquivo := a.nome_arquivo,
                   tipo_arquivo := a.tipo_arquivo.getD (""),
                   tamanho_texto := a.tamanho_texto.getD 0,
                   pontuacao := a.pontuacao,
                   palavras_encontradas := a.palavras_encontradas }],
       par.2 + 1))
    (linhas, seq)

/-- `DatabaseManager.salvar_resultado`: look up the identity key
(`email_remetente`, `assunto`, `data_email`); when a row exists, return
its id and leave the database untouched; otherwise insert the result row
and its attachment rows and return the fresh id. -/
def salvar_resultado (db : BancoDados) (resultado : ResultadoEmail) : Nat × BancoDados :=
  match db.resultados.find? (chave_igual resultado) with
  | some registro_existente => (registro_existente.id, db)
  | none =>
    let resultado_id := db.seq_resultados + 1
    let nova_linha : ResultadoRow :=
      { id := resultado_id,
        email_remetente := resultado.email_remetente,
        assunto := resultado.assunto,
        data_email := resultado.data_email,
        nome_arquivo := resultado.nome_arquivo,
        pontuacao := resultado.pontuacao,
        status := resultado.status,
        vaga_id := resultado.vaga_id }
    let par := inserir_anexos resultado_id resultado.anexos_analisados db.anexos db.seq_anexos
    (resultado_id,
     { resultados := db.resultados ++ [nova_linha],
       anexos := par.1,
       seq_resultados := resultado_id,
       seq_anexos := par.2 })

/-- Modelled from the spec, for comparison with the source's relevance
gate (claim C8): the same per-keyword contributions and the formula
`min(10, 10 × Σ / n)`, but with every substring check performed against
the fully normalised (diacritic-stripped, lower-cased) text, as the
spec's words state. -/
def correspondencia_segundo_spec (texto : String) (palavras_chave_vaga : List String) : ℚ :=
  if palavras_chave_vaga.isEmpty then 0
  else
    let contrib := fun (palavra : String) =>
      let pn := normalizar_texto (pyStrip palavra)
      if isSub pn (normalizar_texto texto) then (1 : ℚ)
      else
        let rel :=
          match lookupAbrev pn with
          | some termos => termos
          | none => []
        if rel.any (fun t => isSub (normalizar_texto t) (normalizar_texto texto)) then 7/10 else 0
    min 10 (10 * (palavras_chave_vaga.map contrib).sum / (palavras_chave_vaga.length : ℚ))

/-! ## Concrete instances used by witnesses and counterexamples -/

/-- Concrete e-mail used to instantiate claim C1: two txt attachments
scoring 0.5 and 0. -/
def email_c1 : EmailData :=
  { remetente := "maria@exemplo.com", assunto := "Currículo", data := "2024-05-01",
    anexos := [{ nome_original := "cv1.txt", tipo := "txt", texto_arquivo := "conhecimento" },
               { nome_original := "cv2.txt", tipo := "txt", texto_arquivo := "sem dados relevantes" }] }

/-- Concrete e-mail falsifying claim C4: its single attachment has an
unsupported type tag, so no text is extracted, yet the status is
`Rejeitado` (score 0 < 1.5), not `Erro`. -/
def email_c4 : EmailData :=
  { remetente := "joao@exemplo.com", assunto := "Vaga TST", data := "2024-02-02",
    anexos := [{ nome_original := "cv.xyz", tipo := "xyz", texto_arquivo := "conteudo" }] }

/-- Concrete doc attachment and job keyword list falsifying claim C5:
extraction yields the non-empty placeholder message, the attachment is
treated as successfully extracted, and the placeholder text scores 7.0
against a keyword list its words match. -/
def anexo_c5 : Anexo := { nome_original := "curriculo.doc", tipo := "doc", texto_arquivo := "" }

/-- Job keyword list under which the doc placeholder text scores 7.0. -/
def palavras_c5 : List String := ["antigo", "converter", "docx"]

/-- Job keyword list used to instantiate claim C2. -/
def palavras_c2 : List String := ["python", "java", "sql", "excel", "ingles"]

/-- E-mail used to instantiate claim C2: one txt attachment whose text
matches none of the five job keywords. -/
def email_c2 : EmailData :=
  { remetente := "ana@exemplo.com", assunto := "Vaga dev", data := "2024-03-03",
    anexos := [{ nome_original := "cv.txt", tipo := "txt",
                 texto_arquivo := "curriculo sobre culinaria" }] }

/-- Counterexample to claim C6 as stated: at the text "alpha" and the
job keywords `palavras_c6`, the stored attachment score is 2.3, while
`0.7 × jobScore + 0.3 × genericScore` is 7/3 — the code rounds the
combination to one decimal place. -/
def palavras_c6 : List String := ["alpha", "beta", "gamma"]

/-- Concrete classification result used to instantiate claim C3. -/
def resultado_c3 : ResultadoEmail :=
  { email_remetente := "rui@exemplo.com", assunto := "Currículo TST", data_email := "2024-04-04",
    anexos_analisados := [], pontuacao := 2, status := "Revisar", nome_arquivo := "cv.pdf" }

/-- Empty database used to instantiate claim C3. -/
def banco_vazio : BancoDados := { resultados := [], anexos := [], seq_resultados := 0, seq_anexos := 0 }

/-- Stored row sharing `resultado_c3`'s identity key, under id 5. -/
def linha_c3 : ResultadoRow :=
  { id := 5, email_remetente := "rui@exemplo.com", assunto := "Currículo TST",
    data_email := "2024-04-04", nome_arquivo := "antigo.pdf", pontuacao := 1,
    status := "Rejeitado", vaga_id := none }

/-- Database that already holds a row with `resultado_c3`'s identity key
under id 5, used to instantiate claim C3's duplicate branch. -/
def banco_com_registro : BancoDados :=
  { resultados := [linha_c3], anexos := [], seq_resultados := 5, seq_anexos := 0 }

/-- The term list of the table entry "ti", spelled out for the witness. -/
def termos_ti : List String :=
  ["tecnologia da informação", "tecnologia da informacao", "informatica", "informática"]

/-! ## Shared helper lemmas -/

/-- Unfolding lemma: the attachment-result list of `analisar_curriculo`. -/
lemma analisar_curriculo_anexos (email_data : EmailData) (pv : Option (List String)) :
    (analisar_curriculo email_data pv).anexos_analisados =
      email_data.anexos.map (fun anexo => analisar_arquivo anexo (resolver_palavras_chave pv)) := rfl

/-- Unfolding lemma: the message-level score of `analisar_curriculo`. -/
lemma analisar_curriculo_pontuacao (email_data : EmailData) (pv : Option (List String)) :
    (analisar_curriculo email_data pv).pontuacao =
      if (email_data.anexos.map (fun anexo => analisar_arquivo anexo (resolver_palavras_chave pv))).length > 0
      then ((email_data.anexos.map (fun anexo => analisar_arquivo anexo (resolver_palavras_chave pv))).map
              (fun r => r.pontuacao)).sum /
        ((email_data.anexos.map (fun anexo => analisar_arquivo anexo (resolver_palavras_chave pv))).length : ℚ)
      else 0 := rfl

/-- Unfolding lemma: the status thresholds of `analisar_curriculo`. -/
lemma analisar_curriculo_status (email_data : EmailData) (pv : Option (List String)) :
    (analisar_curriculo email_data pv).status =
      (if (analisar_curriculo email_data pv).pontuacao ≥ 3 then "Aprovado"
       else if (analisar_curriculo email_data pv).pontuacao ≥ 3/2 then "Revisar"
       else "Rejeitado") := rfl

/-- When every attachment's analysis scores 0, the message mean is 0 and
the e-mail is classified `Rejeitado`. -/
lemma media_zero_rejeitado (email_data : EmailData) (pv : Option (List String))
    (hz : ∀ anexo ∈ email_data.anexos,
      (analisar_arquivo anexo (resolver_palavras_chave pv)).pontuacao = 0) :
    (analisar_curriculo email_data pv).pontuacao = 0 ∧
    (analisar_curriculo email_data pv).status = "Rejeitado" := by
  have hsum :
      ((email_data.anexos.map (fun anexo => analisar_arquivo anexo (resolver_palavras_chave pv))).map
        (fun r => r.pontuacao)).sum = 0 := by
    apply List.sum_eq_zero
    intro x hx
    rcases List.mem_map.mp hx with ⟨r, hr, rfl⟩
    rcases List.mem_map.mp hr with ⟨anexo, ha, rfl⟩
    exact hz anexo ha
  have hp : (analisar_curriculo email_data pv).pontuacao = 0 := by
    rw [analisar_curriculo_pontuacao, hsum]
    split
    · exact zero_div _
    · rfl
  refine ⟨hp, ?_⟩
  rw [analisar_curriculo_status, hp, if_neg (by norm_num), if_neg (by norm_num)]

/-! ## Claim C1 -/

/-- Claim C1: for every e-mail with at least one attachment, the
message-level score of `analisar_curriculo` is the arithmetic mean of
the per-attachment scores, and the status is assigned from that mean by
the thresholds `≥ 3.0 → Aprovado`, `≥ 1.5 → Revisar`, otherwise
`Rejeitado`; in particular a mean of exactly 3.0 is `Aprovado` and a
mean of exactly 1.5 is `Revisar`. -/
theorem claim_C1_media_e_limiares (email_data : EmailData) (pv : Option (List String))
    (h : email_data.anexos ≠ []) :
    (analisar_curriculo email_data pv).pontuacao =
      ((analisar_curriculo email_data pv).anexos_analisados.map (fun r => r.pontuacao)).sum /
        ((analisar_curriculo email_data pv).anexos_analisados.length : ℚ) ∧
    (analisar_curriculo email_data pv).status =
      (if (analisar_curriculo email_data pv).pontuacao ≥ 3 then "Aprovado"
       else if (analisar_curriculo email_data pv).pontuacao ≥ 3/2 then "Revisar"
       else "Rejeitado") ∧
    ((analisar_curriculo email_data pv).pontuacao = 3 →
      (analisar_curriculo email_data pv).status = "Aprovado") ∧
    ((analisar_curriculo email_data pv).pontuacao = 3/2 →
      (analisar_curriculo email_data pv).status = "Revisar") := by
  have hlen :
      (email_data.anexos.map (fun anexo => analisar_arquivo anexo (resolver_palavras_chave pv))).length > 0 := by
    rw [List.length_map]
    exact List.length_pos.mpr h
  refine ⟨?_, analisar_curriculo_status email_data pv, ?_, ?_⟩
  · rw [analisar_curriculo_pontuacao, if_pos hlen, analisar_curriculo_anexos]
  · intro hp
    rw [analisar_curriculo_status, hp, if_pos (by norm_num)]
  · intro hp
    rw [analisar_curriculo_status, hp, if_neg (by norm_num), if_pos (by norm_num)]

/-- Witness for claim C1 at the concrete e-mail `email_c1`. -/
theorem claim_C1_media_e_limiares_witness :
    (analisar_curriculo email_c1 none).pontuacao =
      ((analisar_curriculo email_c1 none).anexos_analisados.map (fun r => r.pontuacao)).sum /
        ((analisar_curriculo email_c1 none).anexos_analisados.length : ℚ) ∧
    (analisar_curriculo email_c1 none).status =
      (if (analisar_curriculo email_c1 none).pontuacao ≥ 3 then "Aprovado"
       else if (analisar_curriculo email_c1 none).pontuacao ≥ 3/2 then "Revisar"
       else "Rejeitado") ∧
    ((analisar_curriculo email_c1 none).pontuacao = 3 →
      (analisar_curriculo email_c1 none).status = "Aprovado") ∧
    ((analisar_curriculo email_c1 none).pontuacao = 3/2 →
      (analisar_curriculo email_c1 none).status = "Revisar") :=
  claim_C1_media_e_limiares email_c1 none (by decide)

/-! ## Claim C4 -/

/-- Counterexample to claim C4 as stated: an e-mail for which no
extracted text exists is classified `Rejeitado` with score 0, not
`Erro`. -/
theorem claim_C4_counterexample :
    (∀ anexo ∈ email_c4.anexos, extrair_texto anexo = "") ∧
    (analisar_curriculo email_c4 none).status = "Rejeitado" ∧
    (analisar_curriculo email_c4 none).status ≠ "Erro" ∧
    (analisar_curriculo email_c4 none).pontuacao = 0 := by
  with_unfolding_all decide

/-- Claim C4 as amended: for every e-mail for which no extracted text
exists (every attachment fails text extraction), `analisar_curriculo`
produces `finalScore = 0` and status `Rejeitado` (the `Erro` status is
reserved for the exception path), and every per-attachment record has
score 0 and `texto_extraido = false`. -/
theorem claim_C4_amended (email_data : EmailData) (pv : Option (List String))
    (h : ∀ anexo ∈ email_data.anexos, extrair_texto anexo = "") :
    (analisar_curriculo email_data pv).pontuacao = 0 ∧
    (analisar_curriculo email_data pv).status = "Rejeitado" ∧
    ∀ r ∈ (analisar_curriculo email_data pv).anexos_analisados,
      r.pontuacao = 0 ∧ r.texto_extraido = false := by
  have hfile : ∀ anexo ∈ email_data.anexos,
      analisar_arquivo anexo (resolver_palavras_chave pv) =
        { nome_arquivo := anexo.nome_original, texto_extraido := false, pontuacao := 0,
          palavras_encontradas := [], erro := some erro_extracao_msg } := by
    intro anexo ha
    simp only [analisar_arquivo, h anexo ha]
    rfl
  have hz : ∀ anexo ∈ email_data.anexos,
      (analisar_arquivo anexo (resolver_palavras_chave pv)).pontuacao = 0 := by
    intro anexo ha
    rw [hfile anexo ha]
  obtain ⟨hp, hs⟩ := media_zero_rejeitado email_data pv hz
  refine ⟨hp, hs, ?_⟩
  intro r hr
  rw [analisar_curriculo_anexos] at hr
  rcases List.mem_map.mp hr with ⟨anexo, ha, rfl⟩
  rw [hfile anexo ha]
  exact ⟨rfl, rfl⟩

/-- Witness for the amended claim C4 at the concrete e-mail `email_c4`. -/
theorem claim_C4_amended_witness :
    (analisar_curriculo email_c4 none).pontuacao = 0 ∧
    (analisar_curriculo email_c4 none).status = "Rejeitado" ∧
    ∀ r ∈ (analisar_curriculo email_c4 none).anexos_analisados,
      r.pontuacao = 0 ∧ r.texto_extraido = false :=
  claim_C4_amended email_c4 none (by decide)

/-! ## Claim C5 -/

/-- Counterexample to claim C5 as stated: a `doc` attachment does not
fail extraction — it yields the fixed placeholder string, is marked as
extracted, and the placeholder text is scored (here to 7.0, not 0). -/
theorem claim_C5_counterexample :
    extrair_texto anexo_c5 ≠ "" ∧
    (analisar_arquivo anexo_c5 palavras_c5).texto_extraido = true ∧
    (analisar_arquivo anexo_c5 palavras_c5).pontuacao = 7 ∧
    (analisar_arquivo anexo_c5 palavras_c5).erro = none := by
  with_unfolding_all decide

/-- Claim C5 as amended: for every attachment whose format tag is `doc`,
`_extrair_texto` returns the fixed informative string "Arquivo DOC
antigo - recomenda-se converter para DOCX"; the attachment is treated as
successfully extracted and it is this placeholder text that gets scored. -/
theorem claim_C5_amended (anexo : Anexo) (palavras_chave : List String)
    (h : anexo.tipo = "doc") :
    extrair_texto anexo = mensagem_doc ∧
    (analisar_arquivo anexo palavras_chave).texto_extraido = true ∧
    (analisar_arquivo anexo palavras_chave).pontuacao =
      (analisar_texto mensagem_doc palavras_chave).pontuacao := by
  have he : extrair_texto anexo = mensagem_doc := by
    simp [extrair_texto, h]
  have hb : (extrair_texto anexo == "") = false := by
    rw [he]
    decide
  refine ⟨he, ?_, ?_⟩ <;> simp only [analisar_arquivo, hb, he] <;> rfl

/-- Witness for the amended claim C5 at the concrete attachment
`anexo_c5`. -/
theorem claim_C5_amended_witness :
    extrair_texto anexo_c5 = mensagem_doc ∧
    (analisar_arquivo anexo_c5 palavras_chave_default).texto_extraido = true ∧
    (analisar_arquivo anexo_c5 palavras_chave_default).pontuacao =
      (analisar_texto mensagem_doc palavras_chave_default).pontuacao :=
  claim_C5_amended anexo_c5 palavras_chave_default rfl

/-! ## Claim C7 -/

/-- Claim C7: for every text and keyword list, `_calcular_score_categoria`
returns `min(10, 10 × matchedCount / totalKeywords)`, returns 0 on an
empty keyword list, and its score always lies in `[0, 10]`. -/
theorem claim_C7_score_categoria (texto : String) (keywords : List String) :
    (keywords = [] → (calcular_score_categoria texto keywords).pontuacao = 0) ∧
    (keywords ≠ [] → (calcular_score_categoria texto keywords).pontuacao =
      min 10 (10 * ((calcular_score_categoria texto keywords).palavras_encontradas.length : ℚ) /
        (keywords.length : ℚ))) ∧
    0 ≤ (calcular_score_categoria texto keywords).pontuacao ∧
    (calcular_score_categoria texto keywords).pontuacao ≤ 10 := by
  have hp : (calcular_score_categoria texto keywords).pontuacao =
      min ((if keywords.length > 0
            then ((calcular_score_categoria texto keywords).palavras_encontradas.length : ℚ) /
              (keywords.length : ℚ)
            else 0) * 10) 10 := rfl
  refine ⟨?_, ?_, ?_, ?_⟩
  · intro hk
    subst hk
    rw [hp, if_neg (by norm_num), zero_mul]
    exact min_eq_left (by norm_num)
  · intro hk
    rw [hp, if_pos (List.length_pos.mpr hk)]
    rw [min_comm]
    congr 1
    rw [div_mul_eq_mul_div, mul_comm]
  · rw [hp]
    apply le_min _ (by norm_num)
    apply mul_nonneg _ (by norm_num)
    split
    · positivity
    · norm_num
  · rw [hp]
    exact min_le_right _ _

/-- Witness for claim C7: the empty-list branch scores 0, and a concrete
non-empty category (one of seven skill keywords matched) realises the
`min` formula. -/
theorem claim_C7_score_categoria_witness :
    (calcular_score_categoria ("texto qualquer") []).pontuacao = 0 ∧
    (calcular_score_categoria ("conhecimento") habilidades_keywords).pontuacao =
      min 10 (10 * ((calcular_score_categoria ("conhecimento") habilidades_keywords).palavras_encontradas.length : ℚ) /
        (habilidades_keywords.length : ℚ)) :=
  ⟨(claim_C7_score_categoria ("texto qualquer") []).1 rfl,
   (claim_C7_score_categoria ("conhecimento") habilidades_keywords).2.1 (by decide)⟩

/-! ## Claim C2 -/

/-- Helper: the gate branch of `_analisar_texto` — a supplied keyword
list different from the default whose correspondence score is below 2
short-circuits to the rejection record. -/
lemma analisar_texto_gate (texto : String) (palavras_chave : List String)
    (hne : palavras_chave ≠ palavras_chave_default)
    (hg : verificar_correspondencia_vaga (pyLower texto) palavras_chave < 2) :
    analisar_texto texto palavras_chave =
      { pontuacao := 0,
        palavras_encontradas := [],
        detalhes :=
          { motivo_rejeicao := some motivo_rejeicao_msg,
            analise_rejeicao := some analise_rejeicao_msg,
            palavras_buscadas := some (palavras_chave.take 5),
            correspondencia_score :=
              some (verificar_correspondencia_vaga (pyLower texto) palavras_chave) } } := by
  simp only [analisar_texto]
  rw [if_pos hne, if_pos hg]

/-- Claim C2: when a job keyword list (different from the analyzer's
default) is supplied and the gate's correspondence score is strictly
below 2.0, the attachment text receives score 0 with an empty match
list; the breakdown holds only the rejection messages, the searched
keywords and the correspondence score — no education / experience /
skills / job-category scores; and an e-mail all of whose attachments
are gated this way ends with score 0 and status `Rejeitado`. -/
theorem claim_C2_gate_rejeita (texto : String) (palavras_chave : List String)
    (hne : palavras_chave ≠ palavras_chave_default)
    (hg : verificar_correspondencia_vaga (pyLower texto) palavras_chave < 2) :
    (analisar_texto texto palavras_chave).pontuacao = 0 ∧
    (analisar_texto texto palavras_chave).palavras_encontradas = [] ∧
    (analisar_texto texto palavras_chave).detalhes.formacao = none ∧
    (analisar_texto texto palavras_chave).detalhes.experiencia = none ∧
    (analisar_texto texto palavras_chave).detalhes.habilidades = none ∧
    (analisar_texto texto palavras_chave).detalhes.palavras_chave_vaga = none ∧
    (analisar_texto texto palavras_chave).detalhes.motivo_rejeicao = some motivo_rejeicao_msg ∧
    (analisar_texto texto palavras_chave).detalhes.correspondencia_score =
      some (verificar_correspondencia_vaga (pyLower texto) palavras_chave) ∧
    (palavras_chave ≠ [] →
      ∀ email_data : EmailData,
        (∀ anexo ∈ email_data.anexos, extrair_texto anexo ≠ "" ∧
          verificar_correspondencia_vaga (pyLower (extrair_texto anexo)) palavras_chave < 2) →
        (analisar_curriculo email_data (some palavras_chave)).pontuacao = 0 ∧
        (analisar_curriculo email_data (some palavras_chave)).status = "Rejeitado") := by
  rw [analisar_texto_gate texto palavras_chave hne hg]
  refine ⟨rfl, rfl, rfl, rfl, rfl, rfl, rfl, rfl, ?_⟩
  intro hvazia email_data hall
  have hres : resolver_palavras_chave (some palavras_chave) = palavras_chave := by
    simp [resolver_palavras_chave, hvazia]
  apply media_zero_rejeitado
  intro anexo ha
  obtain ⟨hext, hgate⟩ := hall anexo ha
  have hb : (extrair_texto anexo == "") = false := beq_eq_false_iff_ne.mpr hext
  rw [hres]
  simp only [analisar_arquivo, hb]
  rw [analisar_texto_gate _ _ hne hgate]
  rfl

/-- Witness for claim C2 at a concrete gated text and e-mail. -/
theorem claim_C2_gate_rejeita_witness :
    (analisar_texto ("curriculo sobre culinaria") palavras_c2).pontuacao = 0 ∧
    (analisar_curriculo email_c2 (some palavras_c2)).pontuacao = 0 ∧
    (analisar_curriculo email_c2 (some palavras_c2)).status = "Rejeitado" :=
  ⟨(claim_C2_gate_rejeita ("curriculo sobre culinaria") palavras_c2 (by decide)
      (by with_unfolding_all decide)).1,
   ((claim_C2_gate_rejeita ("curriculo sobre culinaria") palavras_c2 (by decide)
      (by with_unfolding_all decide)).2.2.2.2.2.2.2.2 (by decide) email_c2
      (by with_unfolding_all decide)).1,
   ((claim_C2_gate_rejeita ("curriculo sobre culinaria") palavras_c2 (by decide)
      (by with_unfolding_all decide)).2.2.2.2.2.2.2.2 (by decide) email_c2
      (by with_unfolding_all decide)).2⟩

/-! ## Claim C6 -/

/-- Helper: the job branch of `_analisar_texto` past the gate — the
returned record combines the job-category score with the generic mean
under the 0.7/0.3 weights and rounds to one decimal. -/
lemma analisar_texto_vaga (texto : String) (palavras_chave : List String)
    (hne : palavras_chave ≠ palavras_chave_default)
    (hg : ¬ verificar_correspondencia_vaga (pyLower texto) palavras_chave < 2) :
    analisar_texto texto palavras_chave =
      { pontuacao := round_py1
          ((calcular_score_categoria (pyLower texto) palavras_chave).pontuacao * (7/10) +
           ((calcular_score_categoria (pyLower texto) formacao_keywords).pontuacao +
            (calcular_score_categoria (pyLower texto) experiencia_keywords).pontuacao +
            (calcular_score_categoria (pyLower texto) habilidades_keywords).pontuacao) / 3 * (3/10)),
        palavras_encontradas :=
          (calcular_score_categoria (pyLower texto) palavras_chave).palavras_encontradas ++
          (calcular_score_categoria (pyLower texto) formacao_keywords).palavras_encontradas ++
          (calcular_score_categoria (pyLower texto) experiencia_keywords).palavras_encontradas ++
          (calcular_score_categoria (pyLower texto) habilidades_keywords).palavras_encontradas,
        detalhes :=
          { palavras_chave_vaga := some (calcular_score_categoria (pyLower texto) palavras_chave),
            formacao := some (calcular_score_categoria (pyLower texto) formacao_keywords),
            experiencia := some (calcular_score_categoria (pyLower texto) experiencia_keywords),
            habilidades := some (calcular_score_categoria (pyLower texto) habilidades_keywords) } } := by
  simp only [analisar_texto]
  rw [if_pos hne, if_neg hg]

/-- Counterexample for claim C6: the attachment score is the rounded
value 23/10, not the exact weighted combination 7/3. -/
theorem claim_C6_counterexample :
    (analisar_texto ("alpha") palavras_c6).pontuacao = 23/10 ∧
    (7/10) * (calcular_score_categoria (pyLower ("alpha")) palavras_c6).pontuacao +
      (3/10) * (((calcular_score_categoria (pyLower ("alpha")) formacao_keywords).pontuacao +
                 (calcular_score_categoria (pyLower ("alpha")) experiencia_keywords).pontuacao +
                 (calcular_score_categoria (pyLower ("alpha")) habilidades_keywords).pontuacao) / 3) =
      7/3 ∧
    (23/10 : ℚ) ≠ 7/3 := by
  with_unfolding_all decide

/-- Claim C6 as amended: for every text and supplied job keyword list
(different from the default) that passes the relevance gate, the
attachment score equals `0.7 × jobScore + 0.3 × genericScore` rounded to
one decimal place (ties to even), where `jobScore` is the job-category
score and `genericScore` is the mean of the education, experience and
skills category scores. -/
theorem claim_C6_amended (texto : String) (palavras_chave : List String)
    (hne : palavras_chave ≠ palavras_chave_default)
    (hg : ¬ verificar_correspondencia_vaga (pyLower texto) palavras_chave < 2) :
    (analisar_texto texto palavras_chave).pontuacao =
      round_py1 ((7/10) * (calcular_score_categoria (pyLower texto) palavras_chave).pontuacao +
        (3/10) * (((calcular_score_categoria (pyLower texto) formacao_keywords).pontuacao +
                   (calcular_score_categoria (pyLower texto) experiencia_keywords).pontuacao +
                   (calcular_score_categoria (pyLower texto) habilidades_keywords).pontuacao) / 3)) := by
  rw [analisar_texto_vaga texto palavras_chave hne hg]
  show round_py1 _ = round_py1 _
  congr 1
  ring

/-- Witness for the amended claim C6 at the text "alpha" and keywords
`palavras_c6` (gate score 10/3 ≥ 2). -/
theorem claim_C6_amended_witness :
    (analisar_texto ("alpha") palavras_c6).pontuacao =
      round_py1 ((7/10) * (calcular_score_categoria (pyLower ("alpha")) palavras_c6).pontuacao +
        (3/10) * (((calcular_score_categoria (pyLower ("alpha")) formacao_keywords).pontuacao +
                   (calcular_score_categoria (pyLower ("alpha")) experiencia_keywords).pontuacao +
                   (calcular_score_categoria (pyLower ("alpha")) habilidades_keywords).pontuacao) / 3)) :=
  claim_C6_amended ("alpha") palavras_c6 (by decide) (by with_unfolding_all decide)

/-! ## Claim C10 -/

/-- Counterexample to claim C10 as stated: with the default keyword list
(no job profile) and the text "conhecimento", the stored attachment
score is 0.5, while the unweighted mean of the education, experience and
skills scores is 10/21 — the code rounds the mean to one decimal place. -/
theorem claim_C10_counterexample :
    (analisar_texto ("conhecimento") palavras_chave_default).pontuacao = 1/2 ∧
    ((calcular_score_categoria (pyLower ("conhecimento")) formacao_keywords).pontuacao +
     (calcular_score_categoria (pyLower ("conhecimento")) experiencia_keywords).pontuacao +
     (calcular_score_categoria (pyLower ("conhecimento")) habilidades_keywords).pontuacao) / 3 =
      10/21 ∧
    ((1:ℚ)/2) ≠ 10/21 := by
  with_unfolding_all decide

/-- Claim C10 as amended: if the supplied job keyword list is empty or
equals the analyzer's built-in default list, classification behaves
exactly as if no job profile had been supplied — the relevance gate is
never evaluated (the breakdown carries no correspondence score and no
job category) and the attachment score is the unweighted mean of the
education, experience and skills category scores rounded to one decimal
place, with no 0.7/0.3 job weighting. -/
theorem claim_C10_amended :
    (∀ email_data : EmailData,
      analisar_curriculo email_data (some []) = analisar_curriculo email_data none ∧
      analisar_curriculo email_data (some palavras_chave_default) =
        analisar_curriculo email_data none) ∧
    (∀ texto : String,
      analisar_texto texto palavras_chave_default =
        { pontuacao := round_py1
            (((calcular_score_categoria (pyLower texto) formacao_keywords).pontuacao +
              (calcular_score_categoria (pyLower texto) experiencia_keywords).pontuacao +
              (calcular_score_categoria (pyLower texto) habilidades_keywords).pontuacao) / 3),
          palavras_encontradas :=
            (calcular_score_categoria (pyLower texto) formacao_keywords).palavras_encontradas ++
            (calcular_score_categoria (pyLower texto) experiencia_keywords).palavras_encontradas ++
            (calcular_score_categoria (pyLower texto) habilidades_keywords).palavras_encontradas,
          detalhes :=
            { formacao := some (calcular_score_categoria (pyLower texto) formacao_keywords),
              experiencia := some (calcular_score_categoria (pyLower texto) experiencia_keywords),
              habilidades := some (calcular_score_categoria (pyLower texto) habilidades_keywords) } }) := by
  constructor
  · intro email_data
    exact ⟨rfl, rfl⟩
  · intro texto
    simp only [analisar_texto]
    rw [if_neg (fun hc => hc rfl)]

/-! ## Claim C8 -/

/-- Helper: the accumulation loop of `_verificar_correspondencia_vaga`
equals the sum of the per-keyword contributions. -/
lemma foldl_contribuicao (texto : String) (l : List String) (acc : ℚ) :
    l.foldl (fun a p => a + contribuicao_vaga texto p) acc =
      acc + (l.map (contribuicao_vaga texto)).sum := by
  induction l generalizing acc with
  | nil => simp
  | cons x xs ih => simp [ih, add_assoc]

/-- Counterexample to claim C8 as stated: at the (already lower-case)
text "educação" and the single job keyword "educação", the source's gate
scores 0 — the normalised keyword "educacao" is searched in the
*lower-cased but not accent-stripped* text — while the spec's formula
over the fully normalised text scores 10. -/
theorem claim_C8_counterexample :
    verificar_correspondencia_vaga ("educação") ["educação"] = 0 ∧
    correspondencia_segundo_spec ("educação") ["educação"] = 10 ∧
    (0 : ℚ) ≠ 10 := by
  with_unfolding_all decide

/-- Claim C8 as amended: for every text and non-empty job keyword list,
the gate's correspondence score equals `min(10, 10 × S / n)` where `S`
sums one contribution per keyword — 1.0 when the stripped-and-normalised
keyword is a substring of the text *as passed* (the caller lower-cases
it but does not strip diacritics), 0.7 when only one of its
abbreviation-table expansions occurs in that text, and 0 otherwise. -/
theorem claim_C8_amended (texto : String) (palavras_chave_vaga : List String)
    (h : palavras_chave_vaga ≠ []) :
    verificar_correspondencia_vaga texto palavras_chave_vaga =
      min 10 (10 * (palavras_chave_vaga.map (contribuicao_vaga texto)).sum /
        (palavras_chave_vaga.length : ℚ)) := by
  unfold verificar_correspondencia_vaga
  rw [if_neg (by simp [h]), foldl_contribuicao, zero_add, min_comm]
  congr 1
  rw [div_mul_eq_mul_div, mul_comm]

/-- Witness for the amended claim C8: a keyword matched only through an
abbreviation expansion contributes 0.7, so one hit among two keywords
gives `min(10, 10 × 0.7 / 2) = 3.5`. -/
theorem claim_C8_amended_witness :
    verificar_correspondencia_vaga ("atuou em recursos humanos") ["rh", "python"] =
      min 10 (10 * ((["rh", "python"] : List String).map
        (contribuicao_vaga ("atuou em recursos humanos"))).sum / (2 : ℚ)) :=
  claim_C8_amended ("atuou em recursos humanos") ["rh", "python"] (by decide)

/-! ## Claim C3 -/

/-- Helper: `find?` over an appended list when the first part has no
hit. -/
lemma find?_append_de_none {α : Type} (p : α → Bool) {l₁ : List α}
    (h : l₁.find? p = none) (l₂ : List α) :
    (l₁ ++ l₂).find? p = l₂.find? p := by
  induction l₁ with
  | nil => rfl
  | cons x xs ih =>
    cases hx : p x with
    | true =>
      rw [List.find?_cons_of_pos _ hx] at h
      exact absurd h (by simp)
    | false =>
      rw [List.find?_cons_of_neg _ (by simp [hx])] at h
      rw [List.cons_append, List.find?_cons_of_neg _ (by simp [hx])]
      exact ih h

/-- Helper: the freshly inserted result row satisfies the identity-key
predicate of the result it was built from. -/
lemma chave_igual_nova_linha (resultado : ResultadoEmail) (rid : Nat) :
    chave_igual resultado
      { id := rid,
        email_remetente := resultado.email_remetente,
        assunto := resultado.assunto,
        data_email := resultado.data_email,
        nome_arquivo := resultado.nome_arquivo,
        pontuacao := resultado.pontuacao,
        status := resultado.status,
        vaga_id := resultado.vaga_id } = true := by
  simp [chave_igual]

/-- Claim C3: `salvar_resultado` is idempotent on the identity key
(`email_remetente`, `assunto`, `data_email`): when a row with the key
already exists, it returns that row's id and leaves the database
untouched; and starting from a database without the key, saving twice
returns the same id both times, the second call changes nothing, and
exactly one stored row carries the key. -/
theorem claim_C3_salvar_idempotente (db : BancoDados) (resultado : ResultadoEmail) :
    (∀ row, db.resultados.find? (chave_igual resultado) = some row →
      salvar_resultado db resultado = (row.id, db)) ∧
    (db.resultados.find? (chave_igual resultado) = none →
      (salvar_resultado (salvar_resultado db resultado).2 resultado).1 =
        (salvar_resultado db resultado).1 ∧
      (salvar_resultado (salvar_resultado db resultado).2 resultado).2 =
        (salvar_resultado db resultado).2 ∧
      ((salvar_resultado db resultado).2.resultados.filter (chave_igual resultado)).length = 1) := by
  constructor
  · intro row hrow
    simp only [salvar_resultado, hrow]
  · intro hnone
    have hfiltro : db.resultados.filter (chave_igual resultado) = [] := by
      rw [List.filter_eq_nil_iff]
      intro a ha
      have := List.find?_eq_none.mp hnone a ha
      simpa using this
    have hfind2 :
        (db.resultados ++
          [({ id := db.seq_resultados + 1,
              email_remetente := resultado.email_remetente,
              assunto := resultado.assunto,
              data_email := resultado.data_email,
              nome_arquivo := resultado.nome_arquivo,
              pontuacao := resultado.pontuacao,
              status := resultado.status,
              vaga_id := resultado.vaga_id } : ResultadoRow)]).find? (chave_igual resultado) =
          some
            { id := db.seq_resultados + 1,
              email_remetente := resultado.email_remetente,
              assunto := resultado.assunto,
              data_email := resultado.data_email,
              nome_arquivo := resultado.nome_arquivo,
              pontuacao := resultado.pontuacao,
              status := resultado.status,
              vaga_id := resultado.vaga_id } := by
      rw [find?_append_de_none _ hnone]
      exact List.find?_cons_of_pos _ (chave_igual_nova_linha resultado (db.seq_resultados + 1))
    refine ⟨?_, ?_, ?_⟩
    · simp only [salvar_resultado, hnone]
      rw [hfind2]
    · simp only [salvar_resultado, hnone]
      rw [hfind2]
    · simp only [salvar_resultado, hnone]
      rw [List.filter_append, hfiltro]
      simp [chave_igual_nova_linha resultado (db.seq_resultados + 1)]

/-- Witness for claim C3: on `banco_com_registro` the existing id 5 is
returned with the database untouched, and on the empty database both
saves agree and leave exactly one row with the key. -/
theorem claim_C3_salvar_idempotente_witness :
    salvar_resultado banco_com_registro resultado_c3 = (linha_c3.id, banco_com_registro) ∧
    (salvar_resultado (salvar_resultado banco_vazio resultado_c3).2 resultado_c3).1 =
      (salvar_resultado banco_vazio resultado_c3).1 ∧
    ((salvar_resultado banco_vazio resultado_c3).2.resultados.filter
      (chave_igual resultado_c3)).length = 1 :=
  ⟨(claim_C3_salvar_idempotente banco_com_registro resultado_c3).1 linha_c3
     (by with_unfolding_all rfl),
   ((claim_C3_salvar_idempotente banco_vazio resultado_c3).2 (by rfl)).1,
   ((claim_C3_salvar_idempotente banco_vazio resultado_c3).2 (by rfl)).2.2⟩

/-! ## Claim C9 -/

/-- The abbreviation table's keys are already normalised, and Python's
dictionary lookup finds each entry under its normalised key. -/
lemma lookup_abreviacoes : ∀ p ∈ abreviacoes, lookupAbrev (normalizar_texto p.1) = some p.2 := by
  decide

/-- Duplicate removal preserves membership. -/
lemma mem_dedupPalavras (x : String) :
    ∀ (l acc : List String), (x ∈ acc ∨ x ∈ l) → x ∈ dedupPalavras acc l := by
  intro l
  induction l with
  | nil =>
    intro acc h
    rcases h with h | h
    · simpa [dedupPalavras] using h
    · cases h
  | cons y ys ih =>
    intro acc h
    simp only [dedupPalavras]
    split
    next hcont =>
      apply ih
      rcases h with h | h
      · exact Or.inl h
      · rcases List.mem_cons.mp h with rfl | h2
        · exact Or.inl (by simpa using hcont)
        · exact Or.inr h2
    next hcont =>
      apply ih
      rcases h with h | h
      · exact Or.inl (List.mem_append.mpr (Or.inl h))
      · rcases List.mem_cons.mp h with rfl | h2
        · exact Or.inl (List.mem_append.mpr (Or.inr (List.mem_singleton.mpr rfl)))
        · exact Or.inr h2

/-- A keyword found by the per-keyword decision of
`_calcular_score_categoria` is reported in `palavras_encontradas` when
it is the only keyword. -/
lemma palavras_encontradas_singleton (texto kw : String)
    (h : encontrou_keyword (normalizar_texto texto) (expandir_palavras_chave [kw]) kw = true) :
    (calcular_score_categoria texto [kw]).palavras_encontradas = [kw] := by
  simp [calcular_score_categoria, h]

/-- An expanded word occurring in the normalised text and standing in
direct abbreviation relation with the keyword makes the keyword count as
matched. -/
lemma encontrou_de_expandida (texto kw pe : String)
    (hmem : pe ∈ expandir_palavras_chave [kw])
    (hsub : isSub (normalizar_texto pe) (normalizar_texto texto) = true)
    (hrel : relacao_direta kw pe = true) :
    encontrou_keyword (normalizar_texto texto) (expandir_palavras_chave [kw]) kw = true := by
  unfold encontrou_keyword
  have hany : (expandir_palavras_chave [kw]).any
      (fun pe => isSub (normalizar_texto pe) (normalizar_texto texto) && relacao_direta kw pe) =
        true :=
    List.any_eq_true.mpr ⟨pe, hmem, by rw [hsub, hrel]; rfl⟩
  simp [hany]

/-- Claim C9: abbreviation matching in `_calcular_score_categoria` is
bidirectional — for every `(abbreviation, terms)` entry of the
abbreviation table and every term of the entry, the keyword equal to the
abbreviation is matched whenever the normalised text contains the
normalised term, and the keyword equal to the term is matched whenever
the normalised text contains the abbreviation (in particular "ti" versus
"tecnologia da informação" in both directions). -/
theorem claim_C9_abreviacao_bidirecional :
    ∀ ab termos, (ab, termos) ∈ abreviacoes → ∀ termo ∈ termos, ∀ texto : String,
      (isSub (normalizar_texto termo) (normalizar_texto texto) = true →
        (calcular_score_categoria texto [ab]).palavras_encontradas = [ab]) ∧
      (isSub (normalizar_texto ab) (normalizar_texto texto) = true →
        (calcular_score_categoria texto [termo]).palavras_encontradas = [termo]) := by
  intro ab termos hab termo htermo texto
  have hlook : lookupAbrev (normalizar_texto ab) = some termos :=
    lookup_abreviacoes (ab, termos) hab
  have hmapmem : normalizar_texto termo ∈ termos.map normalizar_texto :=
    List.mem_map_of_mem normalizar_texto htermo
  constructor
  · intro hsub
    have hmemA : termo ∈ expandir_palavras_chave [ab] := by
      apply mem_dedupPalavras
      refine Or.inr (List.mem_append.mpr (Or.inr ?_))
      refine List.mem_flatMap.mpr ⟨ab, List.mem_singleton.mpr rfl, ?_⟩
      unfold adicoesAbrev
      rw [hlook]
      exact List.mem_append.mpr (Or.inl htermo)
    have hrelA : relacao_direta ab termo = true := by
      simp only [relacao_direta]
      rw [hlook]
      simp
      exact Or.inl ⟨termo, htermo, rfl⟩
    exact palavras_encontradas_singleton texto ab
      (encontrou_de_expandida texto ab termo hmemA hsub hrelA)
  · intro hsub
    have hmemB : ab ∈ expandir_palavras_chave [termo] := by
      apply mem_dedupPalavras
      refine Or.inr (List.mem_append.mpr (Or.inr ?_))
      refine List.mem_flatMap.mpr ⟨termo, List.mem_singleton.mpr rfl, ?_⟩
      unfold adicoesAbrev
      refine List.mem_append.mpr (Or.inr ?_)
      refine List.mem_filterMap.mpr ⟨(ab, termos), hab, ?_⟩
      have hany : termos.any
          (fun t => normalizar_texto termo == normalizar_texto t) = true :=
        List.any_eq_true.mpr ⟨termo, htermo, beq_self_eq_true (normalizar_texto termo)⟩
      rw [if_pos hany]
    have hrelB : relacao_direta termo ab = true := by
      simp only [relacao_direta]
      rw [hlook]
      simp
      exact Or.inr ⟨termo, htermo, rfl⟩
    exact palavras_encontradas_singleton texto termo
      (encontrou_de_expandida texto termo ab hmemB hsub hrelB)

/-- Witness for claim C9 at the table entry `("ti", termos_ti)`: keyword
"ti" matches a text containing "tecnologia da informação", and keyword
"tecnologia da informação" matches a text containing "ti". -/
theorem claim_C9_abreviacao_bidirecional_witness :
    (calcular_score_categoria ("cursou tecnologia da informação") ["ti"]).palavras_encontradas =
      ["ti"] ∧
    (calcular_score_categoria ("formado em ti") ["tecnologia da informação"]).palavras_encontradas =
      ["tecnologia da informação"] :=
  ⟨(claim_C9_abreviacao_bidirecional ("ti") termos_ti (by decide)
      ("tecnologia da informação") (by decide) ("cursou tecnologia da informação")).1 (by decide),
   (claim_C9_abreviacao_bidirecional ("ti") termos_ti (by decide)
      ("tecnologia da informação") (by decide) ("formado em ti")).2 (by decide)⟩
